import Mathlib

/-!
Shallow embedding of the socket.io connection core (cention-sany/go-socket.io):
the per-connection packet loop (src/unnamed/part_002, `socket.loop`), the
namespace dispatcher (src/unnamed/part_001, `socketHandler.onPacket` /
`socketHandler.onAck` / room operations) and the per-namespace socket view
(src/nspsocket.go, `nspSocket`).  External collaborators (transport encoder,
packet decoder, broadcast adaptor, reflective handler invocation) are modelled
as oracles passed in as explicit parameters; every place the Go code consults
one of them, the model consults the oracle.
-/

/-- Dynamically typed Go values flowing through packets and handler calls.
`verr` stands for a non-nil value whose dynamic type implements `error`
(the `.(error)` type assertion in part_001 line 152 succeeds exactly on
those); `vfunc` stands for a value of func kind. -/
inductive GoValue where
  | vnil
  | vbool (b : Bool)
  | vint (n : Int)
  | vstr (s : String)
  | verr (msg : String)
  | vfunc
  deriving DecidableEq

/-- The `.(error)` type assertion of part_001 line 152: succeeds only on a
value whose dynamic type implements error. -/
def GoValue.isError : GoValue → Bool
  | GoValue.verr _ => true
  | _ => false

/-- A registered handler or ack continuation (the `caller` reflection shim).
`zero` is the fresh zero-valued argument slot list that `GetArgs` returns
(declared parameter count excluding the socket); `fn` is `Call` with the
socket argument left implicit (the socket is fixed per connection and carries
no data the dispatcher inspects); `tag` is an identity used to record which
caller was invoked. -/
structure Caller where
  tag : Nat
  zero : List GoValue
  fn : List GoValue → List GoValue

/-- Packet types of src/unnamed (the `_CONNECT` .. `_BINARY_ACK` constants). -/
inductive PacketType where
  | CONNECT
  | DISCONNECT
  | EVENT
  | ACK
  | ERROR
  | BINARY_EVENT
  | BINARY_ACK
  deriving DecidableEq

/-- The wire packet.  `ptype` renders the Go field `Type` (a reserved word
here); `Data` is `Option` because Go distinguishes a nil slice from an empty
one (`Data: ret` in the loop forwards a possibly-nil return slice). -/
structure Packet where
  ptype : PacketType
  Id : Int
  NSP : String
  Data : Option (List GoValue)
  deriving DecidableEq

/-- Oracle for the wire decoder: `message` is what `decoder.Message()` would
return, and `decodeData` is `decoder.DecodeData` — given the pre-allocated
argument slots it either fails with an error value or yields the slice the
slots hold afterwards (type-directed decode, resized to the payload width). -/
structure Decoder where
  message : String
  decodeData : List GoValue → Except GoValue (List GoValue)

/-- Operations performed on the decoder, recorded so that theorems can state
which decoder methods a dispatch did (or did not) invoke. -/
inductive DecOp where
  | message
  | decodeData
  | close
  deriving DecidableEq

/-- The per-connection ack table `acks : map[int]*caller` as an association
list observed through `lookupAck`. -/
abbrev AckTable := List (Int × Caller)

/-- The per-namespace handler table `events : map[string]*caller`. -/
abbrev EventTable := List (String × Caller)

/-- Map lookup on the ack table. -/
def lookupAck : AckTable → Int → Option Caller
  | [], _ => none
  | (j, c) :: t, i => if j = i then some c else lookupAck t i

/-- `delete(acks, id)` of the Go map. -/
def eraseAck : AckTable → Int → AckTable
  | [], _ => []
  | (j, c) :: t, i => if j = i then eraseAck t i else (j, c) :: eraseAck t i

/-- `acks[id] = c` of the Go map (update observed through `lookupAck`). -/
def insertAck (t : AckTable) (i : Int) (c : Caller) : AckTable :=
  (i, c) :: t

/-- Map lookup on the handler table. -/
def lookupEvent : EventTable → String → Option Caller
  | [], _ => none
  | (k, c) :: t, s => if k = s then some c else lookupEvent t s

/-- Result of `socketHandler.onAck` (part_001 lines 163-181): the returned
error, the ack table afterwards, the decoder operations done, the list of
continuation invocations `(tag, args)`, and whether a nil decoder was
dereferenced. -/
structure AckResult where
  err : Option GoValue
  acks : AckTable
  ops : List DecOp
  calls : List (Nat × List GoValue)
  panicked : Bool

/-- `socketHandler.onAck` (part_001 lines 163-181): look up and delete the
ack-table entry for `id`; if absent, silently return nil; otherwise decode
into the continuation's fresh arg slots and invoke it, discarding its
return.  A present entry with a nil decoder would dereference nil
(`decoder.DecodeData`), recorded as `panicked`. -/
def socketHandler.onAck (acks : AckTable) (id : Int) (dec : Option Decoder) : AckResult :=
  match lookupAck acks id with
  | none => { err := none, acks := acks, ops := [], calls := [], panicked := false }
  | some c =>
    let acks2 := eraseAck acks id
    match dec with
    | none => { err := none, acks := acks2, ops := [], calls := [], panicked := true }
    | some d =>
      match d.decodeData c.zero with
      | Except.error e =>
          { err := some e, acks := acks2, ops := [DecOp.decodeData], calls := [], panicked := false }
      | Except.ok args =>
          { err := none, acks := acks2, ops := [DecOp.decodeData],
            calls := [(c.tag, args)], panicked := false }

/-- Result of `socketHandler.onPacket` (part_001 lines 105-161): the returned
`([]interface\x7b\x7d, error)` pair plus the observable effects. -/
structure DispatchResult where
  ret : Option (List GoValue)
  err : Option GoValue
  acks : AckTable
  ops : List DecOp
  calls : List (Nat × List GoValue)
  panicked : Bool

/-- Lift an ack-correlator result into a dispatch result (`return nil,
h.onAck(...)` at part_001 line 117). -/
def ackToDispatch (r : AckResult) : DispatchResult :=
  { ret := none, err := r.err, acks := r.acks, ops := r.ops,
    calls := r.calls, panicked := r.panicked }

/-- The message-name resolution switch of part_001 lines 107-122 (the
ACK/BINARY_ACK arms are handled before this is consulted).  Returns the
resolved name together with the decoder operations performed: the default arm
calls `decoder.Message()` only when a decoder is present. -/
def resolvedMessage : PacketType → Option Decoder → String × List DecOp
  | PacketType.CONNECT, _ => ("connection", [])
  | PacketType.DISCONNECT, _ => ("disconnection", [])
  | PacketType.ERROR, _ => ("error", [])
  | _, some d => (d.message, [DecOp.message])
  | _, none => ("", [])

/-- The guarded `decoder.Close()` of part_001 lines 129-131. -/
def closeOps : Option Decoder → List DecOp
  | some _ => [DecOp.close]
  | none => []

/-- The padding loop of part_001 lines 142-144: `for i := len(args); i < olen;
i++ \x7b args = append(args, nil) \x7d`. -/
def padArgs (args : List GoValue) (olen : Nat) : List GoValue :=
  args ++ List.replicate (olen - args.length) GoValue.vnil

/-- Part_001 lines 147-160: an empty return means `(nil, nil)`; otherwise if
the last returned value asserts to `error` it is split off as the dispatch
error and the rest become the (non-nil) return slice. -/
def splitLastError (retV : List GoValue) : Option (List GoValue) × Option GoValue :=
  match retV.getLast? with
  | none => (none, none)
  | some lastV =>
      if lastV.isError then (some retV.dropLast, some lastV)
      else (some retV, none)

/-- Invoke the handler (part_001 line 146) on the final argument list and
package its return values (lines 147-160). -/
def finishCall (c : Caller) (args : List GoValue) (acks : AckTable)
    (ops : List DecOp) : DispatchResult :=
  let retV := c.fn args
  let se := splitLastError retV
  { ret := se.1, err := se.2, acks := acks, ops := ops,
    calls := [(c.tag, args)], panicked := false }

/-- Part_001 lines 134-146: allocate the handler's fresh zero-valued slots,
decode into them when `olen > 0` and a decoder is present (surfacing a decode
error), run the padding loop, and invoke the handler. -/
def runHandler (c : Caller) (dec : Option Decoder) (acks : AckTable)
    (ops0 : List DecOp) : DispatchResult :=
  let args0 := c.zero
  let olen := args0.length
  if 0 < olen then
    match dec with
    | some d =>
        match d.decodeData args0 with
        | Except.error e =>
            { ret := none, err := some e, acks := acks,
              ops := ops0 ++ [DecOp.decodeData], calls := [], panicked := false }
        | Except.ok decoded =>
            finishCall c (padArgs decoded olen) acks (ops0 ++ [DecOp.decodeData])
    | none => finishCall c (padArgs args0 olen) acks ops0
  else finishCall c (padArgs args0 olen) acks ops0

/-- `socketHandler.onPacket` (part_001 lines 105-161): ACK and BINARY_ACK are
delegated to the ack correlator; otherwise the message name is resolved, the
handler looked up (unknown events close a present decoder and return
`(nil, nil)`), and the handler run. -/
def socketHandler.onPacket (events : EventTable) (acks : AckTable)
    (dec : Option Decoder) (p : Packet) : DispatchResult :=
  if p.ptype = PacketType.ACK ∨ p.ptype = PacketType.BINARY_ACK then
    ackToDispatch (socketHandler.onAck acks p.Id dec)
  else
    let md := resolvedMessage p.ptype dec
    match lookupEvent events md.1 with
    | none =>
        { ret := none, err := none, acks := acks, ops := md.2 ++ closeOps dec,
          calls := [], panicked := false }
    | some c => runHandler c dec acks md.2

/-- `fmt.Sprintf("%s:%s", h.name, room)` — part_001 lines 97-99. -/
def broadcastName (name room : String) : String :=
  name ++ ":" ++ room

/-- The room-set insert `h.rooms[roomName] = struct\x7b\x7d\x7b\x7d`
observed as a duplicate-free list. -/
def insertRoom (rooms : List String) (r : String) : List String :=
  if r ∈ rooms then rooms else rooms ++ [r]

/-- Result of `socketHandler.Join`. -/
structure JoinResult where
  err : Option GoValue
  rooms : List String

/-- `socketHandler.Join` (part_001 lines 62-69): prefix the room, call the
adaptor (oracle `je` gives its result per canonical name), and only on
success record the canonical name in the membership set. -/
def socketHandler.Join (name : String) (rooms : List String) (room : String)
    (je : String → Option GoValue) : JoinResult :=
  let roomName := broadcastName name room
  match je roomName with
  | some e => { err := some e, rooms := rooms }
  | none => { err := none, rooms := insertRoom rooms roomName }

/-- `socketHandler.LeaveAll` (part_001 lines 80-87): iterate the membership
set, call the adaptor Leave on `broadcastName(stored name)` for each entry,
stopping at the first adaptor error.  Returns the list of room names actually
passed to the adaptor and the error result.  The membership set itself is not
mutated by the source. -/
def leaveAllCalls (name : String) (rooms : List String)
    (le : String → Option GoValue) : List String × Option GoValue :=
  match rooms with
  | [] => ([], none)
  | r :: rest =>
      let rn := broadcastName name r
      match le rn with
      | some e => ([rn], some e)
      | none =>
          let t := leaveAllCalls name rest le
          (rn :: t.1, t.2)

/-- One per-namespace socket view: its namespace name, the shared handler
table, the `connected` flag (src/nspsocket.go line 12), the `disconnected`
flag read and written by the loop (part_002 lines 89, 100, 145; the field
lives on the view alongside `connected`), and the room membership set. -/
structure NspView where
  name : String
  events : EventTable
  connected : Bool
  disconnected : Bool
  rooms : List String

/-- Result of `nspSocket.sendConnect`. -/
structure SendConnectResult where
  connected : Bool
  sent : Packet
  err : Option GoValue

/-- `nspSocket.sendConnect` (src/nspsocket.go lines 92-101): build the
CONNECT reply, set `connected = true`, then encode it (oracle `ee` gives the
encoder result per packet) and return the encoder's error. -/
def nspSocket.sendConnect (name : String) (ee : Packet → Option GoValue) : SendConnectResult :=
  let p : Packet := { ptype := PacketType.CONNECT, Id := -1, NSP := name, Data := none }
  { connected := true, sent := p, err := ee p }

/-- Go int64 two's-complement bounds and wrap-around. -/
def int64Max : Int := 9223372036854775807

/-- Signed 64-bit wrap of an integer (two's complement). -/
def wrapInt64 (n : Int) : Int :=
  (n + 9223372036854775808) % 18446744073709551616 - 9223372036854775808

/-- `n.id++` on a Go int (64-bit signed, overflow wraps). -/
def incInt64 (n : Int) : Int :=
  wrapInt64 (n + 1)

/-- Result of `nspSocket.sendId`. -/
structure SendIdResult where
  id : Int
  err : Option GoValue
  counter : Int
  sent : Packet

/-- `nspSocket.sendId` (src/nspsocket.go lines 103-123): under the id mutex,
place the current counter into the packet's Id, post-increment the counter
and reset it to 0 when the increment went negative; then encode.  Note the
source's encode-failure branch is `return -1, nil`: the encoder error is
dropped and a nil error returned with id -1. -/
def nspSocket.sendId (counter : Int) (name : String) (args : List GoValue)
    (ee : Packet → Option GoValue) : SendIdResult :=
  let p : Packet := { ptype := PacketType.EVENT, Id := counter, NSP := name, Data := some args }
  let c1 := incInt64 counter
  let c2 := if c1 < 0 then 0 else c1
  match ee p with
  | some _ => { id := -1, err := none, counter := c2, sent := p }
  | none => { id := p.Id, err := none, counter := c2, sent := p }

/-- An argument passed to `Emit`: a plain value, a callable that `newCaller`
accepts, or a callable it rejects with an error (the reflect kind check at
src/nspsocket.go lines 36-37 sees the latter two as `reflect.Func`). -/
inductive EmitArg where
  | val (v : GoValue)
  | fn (c : Caller)
  | badFn (e : GoValue)

/-- The value a non-callable (or leftover) argument contributes to the
packet data. -/
def EmitArg.toVal : EmitArg → GoValue
  | EmitArg.val v => v
  | _ => GoValue.vfunc

/-- Result of `nspSocket.nspEmit`. -/
structure EmitResult where
  err : Option GoValue
  acks : AckTable
  counter : Int
  sent : List Packet

/-- `nspSocket.nspEmit` (src/nspsocket.go lines 33-58): when the last
argument is of func kind, wrap it as the ack continuation (failing the
emission if wrapping fails) and drop it from the args; prepend the event
name; with a continuation go through `sendId` and on a nil error install
`acks[id] = c`; otherwise send a plain EVENT with Id -1. -/
def nspSocket.nspEmit (counter : Int) (name : String) (acks : AckTable)
    (event : String) (args : List EmitArg) (ee : Packet → Option GoValue) : EmitResult :=
  let split : Except GoValue (Option Caller × List EmitArg) :=
    match args.getLast? with
    | some (EmitArg.fn c) => Except.ok (some c, args.dropLast)
    | some (EmitArg.badFn e) => Except.error e
    | _ => Except.ok (none, args)
  match split with
  | Except.error e => { err := some e, acks := acks, counter := counter, sent := [] }
  | Except.ok (copt, args2) =>
    let data := GoValue.vstr event :: args2.map EmitArg.toVal
    match copt with
    | some c =>
      let r := nspSocket.sendId counter name data ee
      match r.err with
      | some e => { err := some e, acks := acks, counter := r.counter, sent := [r.sent] }
      | none => { err := none, acks := insertAck acks r.id c, counter := r.counter, sent := [r.sent] }
    | none =>
      let p : Packet := { ptype := PacketType.EVENT, Id := -1, NSP := name, Data := some data }
      { err := ee p, acks := acks, counter := counter, sent := [p] }

/-- Observable outcome of one iteration of the read loop body (part_002
lines 113-147), after a successful `decoder.Decode`. -/
structure IterResult where
  emitted : List Packet
  exits : Bool
  view : NspView
  acks : AckTable
  leaves : List String
  calls : List (Nat × List GoValue)

/-- One iteration of `socket.loop` (part_002 lines 113-147): dispatch the
decoded packet through `onPacket`; a non-nil dispatch error exits the loop
before the packet-type switch; otherwise CONNECT replies via `sendConnect`
(its error is ignored by the loop), EVENT/BINARY_EVENT with `Id >= 0` encode
an ACK with the same Id and NSP carrying the dispatch return values (an
encoder error exits), and DISCONNECT runs `LeaveAll` (its error ignored) and
sets the view's `disconnected` flag. -/
def loopIteration (v : NspView) (acks : AckTable) (d : Decoder) (p : Packet)
    (le : String → Option GoValue) (ee : Packet → Option GoValue) : IterResult :=
  let r := socketHandler.onPacket v.events acks (some d) p
  match r.err with
  | some _ =>
      { emitted := [], exits := true, view := v, acks := r.acks, leaves := [], calls := r.calls }
  | none =>
      if p.ptype = PacketType.CONNECT then
        let sc := nspSocket.sendConnect v.name ee
        { emitted := [sc.sent], exits := false, view := { v with connected := sc.connected },
          acks := r.acks, leaves := [], calls := r.calls }
      else if p.ptype = PacketType.BINARY_EVENT ∨ p.ptype = PacketType.EVENT then
        if 0 ≤ p.Id then
          let ack : Packet := { ptype := PacketType.ACK, Id := p.Id, NSP := p.NSP, Data := r.ret }
          { emitted := [ack], exits := (ee ack).isSome, view := v,
            acks := r.acks, leaves := [], calls := r.calls }
        else
          { emitted := [], exits := false, view := v, acks := r.acks, leaves := [], calls := r.calls }
      else if p.ptype = PacketType.DISCONNECT then
        let la := leaveAllCalls v.name v.rooms le
        { emitted := [], exits := false, view := { v with disconnected := true },
          acks := r.acks, leaves := la.1, calls := r.calls }
      else
        { emitted := [], exits := false, view := v, acks := r.acks, leaves := [], calls := r.calls }

/-- Observable outcome of the deferred cleanup of `socket.loop`. -/
structure CleanupResult where
  views : List NspView
  acks : AckTable
  leaves : List String
  calls : List (Nat × List GoValue)

/-- The deferred cleanup of `socket.loop` (part_002 lines 87-102): for every
view not already disconnected, run `LeaveAll` (error and set ignored),
dispatch a synthesised DISCONNECT packet (`Id = -1`, nil decoder) locally,
and set the `disconnected` flag. -/
def loopCleanup (vs : List NspView) (acks : AckTable)
    (le : String → Option GoValue) : CleanupResult :=
  match vs with
  | [] => { views := [], acks := acks, leaves := [], calls := [] }
  | v :: rest =>
      if v.disconnected then
        let t := loopCleanup rest acks le
        { views := v :: t.views, acks := t.acks, leaves := t.leaves, calls := t.calls }
      else
        let la := leaveAllCalls v.name v.rooms le
        let p : Packet := { ptype := PacketType.DISCONNECT, Id := -1, NSP := v.name, Data := none }
        let r := socketHandler.onPacket v.events acks none p
        let t := loopCleanup rest r.acks le
        { views := { v with disconnected := true } :: t.views, acks := t.acks,
          leaves := la.1 ++ t.leaves, calls := r.calls ++ t.calls }

-- Helper lemmas shared by several developments.

theorem padArgs_self (l : List GoValue) : padArgs l l.length = l := by
  simp [padArgs]

theorem lookupAck_erase (t : AckTable) (i : Int) :
    lookupAck (eraseAck t i) i = none := by
  induction t with
  | nil => rfl
  | cons hd tl ih =>
      obtain ⟨j, c⟩ := hd
      by_cases h : j = i
      · simp [eraseAck, h, ih]
      · simp [eraseAck, lookupAck, h, ih]

theorem runHandler_none (c : Caller) (acks : AckTable) (ops0 : List DecOp) :
    runHandler c none acks ops0 = finishCall c c.zero acks ops0 := by
  unfold runHandler
  by_cases h : 0 < c.zero.length
  · simp [h, padArgs_self]
  · simp [h, padArgs_self]

theorem resolvedMessage_none_ops (t : PacketType) :
    (resolvedMessage t none).2 = [] := by
  cases t <;> rfl

-- Concrete fixtures used by witnesses and counterexamples.

/-- A continuation caller used in concrete emission scenarios. -/
def cbCont : Caller := { tag := 7, zero := [], fn := fun _ => [] }

/-- The two rooms of spec scenario 4, joined on namespace "/chat" through
`socketHandler.Join` with an always-succeeding adaptor. -/
def chatJoined : List String :=
  (socketHandler.Join "/chat"
    (socketHandler.Join "/chat" [] "a" (fun _ => none)).rooms "b" (fun _ => none)).rooms

/-- A "/chat" view holding the two joined rooms, not yet disconnected. -/
def vChat : NspView :=
  { name := "/chat", events := [], connected := true, disconnected := false,
    rooms := chatJoined }

/-- A view that joined one room, used to exhibit that cleanup leaves the
membership set non-empty. -/
def vRoomy : NspView :=
  { name := "/chat", events := [], connected := true, disconnected := false,
    rooms := ["/chat:a"] }

/-- An ack continuation expecting one argument. -/
def cAckW : Caller := { tag := 5, zero := [GoValue.vnil], fn := fun _ => [] }

/-- A decoder that decodes the ACK payload to `[9]`. -/
def dAckW : Decoder := { message := "", decodeData := fun _ => Except.ok [GoValue.vint 9] }

/-- An inbound ACK packet carrying id 3. -/
def pAckW : Packet := { ptype := PacketType.ACK, Id := 3, NSP := "", Data := none }

/-- A decoder whose payload's event name is the unregistered "xyzzy". -/
def dXyzzy : Decoder := { message := "xyzzy", decodeData := fun l => Except.ok l }

/-- A root view with an empty handler table. -/
def vEmptyRoot : NspView :=
  { name := "", events := [], connected := true, disconnected := false, rooms := [] }

/-- An inbound EVENT that requests an ACK (Id 3). -/
def pXyzzy : Packet := { ptype := PacketType.EVENT, Id := 3, NSP := "", Data := none }

/-- A handler of declared arity 2 returning its arguments. -/
def cPad : Caller := { tag := 4, zero := [GoValue.vnil, GoValue.vnil], fn := fun l => l }

/-- A decoder supplying only one payload element for event "ev". -/
def dPad : Decoder := { message := "ev", decodeData := fun _ => Except.ok [GoValue.vint 1] }

/-- An inbound EVENT not requesting an ACK. -/
def pEv : Packet := { ptype := PacketType.EVENT, Id := -1, NSP := "", Data := none }

/-- A "disconnection" handler of declared arity 1. -/
def cDisc : Caller := { tag := 6, zero := [GoValue.vnil], fn := fun _ => [] }

/-- The locally synthesised cleanup DISCONNECT packet for "/chat". -/
def pDisc : Packet := { ptype := PacketType.DISCONNECT, Id := -1, NSP := "/chat", Data := none }

/-- A handler for "hello" whose only return value is an error. -/
def cBoom : Caller := { tag := 1, zero := [], fn := fun _ => [GoValue.verr "boom"] }

/-- A decoder resolving the inbound event name to "hello". -/
def dHello : Decoder := { message := "hello", decodeData := fun l => Except.ok l }

/-- A root view registering the erroring "hello" handler. -/
def vHello : NspView :=
  { name := "", events := [("hello", cBoom)], connected := true, disconnected := false,
    rooms := [] }

/-- An inbound EVENT with Id 7 on the root namespace. -/
def pEvent7 : Packet := { ptype := PacketType.EVENT, Id := 7, NSP := "", Data := none }

/-- A handler for "hello" returning the single non-error value "hi". -/
def cHi : Caller := { tag := 2, zero := [], fn := fun _ => [GoValue.vstr "hi"] }

/-- A root view registering the successful "hello" handler. -/
def vHi : NspView :=
  { name := "", events := [("hello", cHi)], connected := true, disconnected := false,
    rooms := [] }

/-- C10: `sendConnect` sets the view's `connected` flag to true before
encoding the CONNECT reply, so the flag is true after the call even when
encoding fails and `sendConnect` returns that error. -/
theorem sendConnect_connected_on_encode_error (name : String)
    (ee : Packet → Option GoValue) (e : GoValue)
    (he : ee { ptype := PacketType.CONNECT, Id := -1, NSP := name, Data := none } = some e) :
    (nspSocket.sendConnect name ee).connected = true ∧
    (nspSocket.sendConnect name ee).err = some e := by
  simp [nspSocket.sendConnect, he]

theorem sendConnect_connected_on_encode_error_witness :
    (nspSocket.sendConnect "/chat" (fun _ => some (GoValue.verr "enc"))).connected = true ∧
    (nspSocket.sendConnect "/chat" (fun _ => some (GoValue.verr "enc"))).err
      = some (GoValue.verr "enc") :=
  sendConnect_connected_on_encode_error "/chat" (fun _ => some (GoValue.verr "enc"))
    (GoValue.verr "enc") rfl

/-- C5: `sendId` places the current counter value into the outgoing packet's
Id and post-increments the counter, wrapping to 0 when the signed increment
overflows negative; in particular after the maximum signed id the next
allocated id is 0. -/
theorem sendId_counter_wrap (counter : Int) (name : String) (args : List GoValue)
    (ee : Packet → Option GoValue) (h0 : 0 ≤ counter) (h1 : counter ≤ int64Max) :
    (nspSocket.sendId counter name args ee).sent.Id = counter ∧
    (nspSocket.sendId counter name args ee).counter =
      (if counter = int64Max then 0 else counter + 1) := by
  have key : (if incInt64 counter < 0 then 0 else incInt64 counter) =
      (if counter = int64Max then 0 else counter + 1) := by
    by_cases hc : counter = int64Max
    · subst hc
      decide
    · have h1n : counter ≤ 9223372036854775807 := by simpa [int64Max] using h1
      have hcn : ¬ counter = 9223372036854775807 := by simpa [int64Max] using hc
      have hw : incInt64 counter = counter + 1 := by
        unfold incInt64 wrapInt64
        omega
      rw [hw, if_neg (by omega), if_neg hc]
  simp only [nspSocket.sendId]
  rcases he : ee { ptype := PacketType.EVENT, Id := counter, NSP := name, Data := some args }
    with _ | e <;> exact ⟨rfl, key⟩

theorem sendId_counter_wrap_witness :
    0 ≤ int64Max ∧ int64Max ≤ int64Max ∧
    ((nspSocket.sendId int64Max "" [] (fun _ => none)).sent.Id = int64Max ∧
     (nspSocket.sendId int64Max "" [] (fun _ => none)).counter =
       (if int64Max = int64Max then 0 else int64Max + 1)) :=
  ⟨by decide, le_refl _, sendId_counter_wrap int64Max "" [] (fun _ => none) (by decide) (le_refl _)⟩

/-- C2 (code bug): when `Emit` carries a trailing callable and the encoder
fails, `sendId` executes `return -1, nil` (src/nspsocket.go line 120), so the
encode error is swallowed: `nspEmit` returns a nil error and installs the
continuation under id -1 — the ack table is mutated although encoding
failed. -/
theorem nspEmit_encode_failure_swallowed :
    (nspSocket.nspEmit 0 "" [] "ping"
        [EmitArg.val (GoValue.vint 42), EmitArg.fn cbCont]
        (fun _ => some (GoValue.verr "encode failed"))).err = none ∧
    lookupAck (nspSocket.nspEmit 0 "" [] "ping"
        [EmitArg.val (GoValue.vint 42), EmitArg.fn cbCont]
        (fun _ => some (GoValue.verr "encode failed"))).acks (-1) = some cbCont :=
  ⟨rfl, rfl⟩

/-- C3 (code bug): after joining rooms "a" and "b" on namespace "/chat" the
membership set holds the canonical names, but `LeaveAll` during transport
cleanup prefixes the stored names again, so the adaptor receives
`Leave("/chat:/chat:a")` and `Leave("/chat:/chat:b")` — never the canonical
singly prefixed names the rooms were joined under. -/
theorem leaveAll_double_prefix :
    chatJoined = ["/chat:a", "/chat:b"] ∧
    (loopCleanup [vChat] [] (fun _ => none)).leaves = ["/chat:/chat:a", "/chat:/chat:b"] ∧
    ¬ ("/chat:/chat:a" = "/chat:a" ∨ "/chat:/chat:a" = "/chat:b" ∨
       "/chat:/chat:b" = "/chat:a" ∨ "/chat:/chat:b" = "/chat:b") := by
  refine ⟨by decide, rfl, by decide⟩

/-- C4 counterexample: a view that joined room "a" on "/chat" and is cleaned
up after loop exit keeps its membership set — `LeaveAll` never deletes from
`h.rooms`, so the set is not empty as the claim requires. -/
theorem loopCleanup_rooms_not_emptied :
    ((loopCleanup [vRoomy] [] (fun _ => none)).views.map NspView.rooms = [["/chat:a"]]) ∧
    ¬ ([["/chat:a"]] = ([[]] : List (List String))) :=
  ⟨rfl, by decide⟩

/-- C4 amended: after the cleanup that runs on loop exit every namespace view
has `disconnected = true`, but the room membership sets are left exactly as
they were (the source's `LeaveAll` only calls the adaptor and never clears
the set). -/
theorem loopCleanup_disconnects_all (vs : List NspView) (acks : AckTable)
    (le : String → Option GoValue) :
    ((loopCleanup vs acks le).views.all fun v => v.disconnected) = true ∧
    (loopCleanup vs acks le).views.map NspView.rooms = vs.map NspView.rooms := by
  induction vs generalizing acks with
  | nil => simp [loopCleanup]
  | cons v rest ih =>
      by_cases h : v.disconnected = true
      · have hr := ih acks
        simp [loopCleanup, h, hr.1, hr.2]
      · have hr := ih (socketHandler.onPacket v.events acks none
          { ptype := PacketType.DISCONNECT, Id := -1, NSP := v.name, Data := none }).acks
        simp [loopCleanup, h, hr.1, hr.2]

/-- C6: an inbound ACK or BINARY_ACK with id `p.Id`: when the ack table has no
entry the dispatch silently returns a nil error with the table unchanged;
when an entry is present and the payload decodes, the entry is removed and
the stored continuation invoked exactly once with the decoded args. -/
theorem onPacket_ack_correlation (events : EventTable) (acks : AckTable) (d : Decoder)
    (p : Packet) (c : Caller) (decoded : List GoValue)
    (hp : p.ptype = PacketType.ACK ∨ p.ptype = PacketType.BINARY_ACK) :
    (lookupAck acks p.Id = none →
        socketHandler.onPacket events acks (some d) p =
          { ret := none, err := none, acks := acks, ops := [], calls := [], panicked := false }) ∧
    (lookupAck acks p.Id = some c → d.decodeData c.zero = Except.ok decoded →
        (socketHandler.onPacket events acks (some d) p).calls = [(c.tag, decoded)] ∧
        lookupAck (socketHandler.onPacket events acks (some d) p).acks p.Id = none ∧
        (socketHandler.onPacket events acks (some d) p).err = none) := by
  constructor
  · intro hnone
    unfold socketHandler.onPacket
    rw [if_pos hp]
    unfold socketHandler.onAck
    rw [hnone]
    rfl
  · intro hsome hdec
    unfold socketHandler.onPacket
    rw [if_pos hp]
    unfold socketHandler.onAck
    rw [hsome]
    simp only [hdec]
    exact ⟨rfl, lookupAck_erase acks p.Id, rfl⟩

theorem onPacket_ack_correlation_witness :
    (socketHandler.onPacket [] [(3, cAckW)] (some dAckW) pAckW).calls
      = [(cAckW.tag, [GoValue.vint 9])] ∧
    lookupAck (socketHandler.onPacket [] [(3, cAckW)] (some dAckW) pAckW).acks pAckW.Id = none ∧
    (socketHandler.onPacket [] [(3, cAckW)] (some dAckW) pAckW).err = none :=
  (onPacket_ack_correlation [] [(3, cAckW)] dAckW pAckW cAckW [GoValue.vint 9]
    (Or.inl rfl)).2 rfl rfl

/-- C7: when the resolved event name has no handler-table entry, the
dispatcher closes a present decoder, surfaces no error and returns
`(nil, nil)`, and the connection loop keeps running. -/
theorem onPacket_unknown_event_closes (v : NspView) (acks : AckTable) (d : Decoder)
    (p : Packet) (le : String → Option GoValue)
    (h1 : p.ptype ≠ PacketType.ACK) (h2 : p.ptype ≠ PacketType.BINARY_ACK)
    (hm : lookupEvent v.events (resolvedMessage p.ptype (some d)).1 = none) :
    socketHandler.onPacket v.events acks (some d) p =
      { ret := none, err := none, acks := acks,
        ops := (resolvedMessage p.ptype (some d)).2 ++ [DecOp.close],
        calls := [], panicked := false } ∧
    (loopIteration v acks d p le (fun _ => none)).exits = false := by
  have hno : ¬ (p.ptype = PacketType.ACK ∨ p.ptype = PacketType.BINARY_ACK) := by
    rintro (h | h)
    · exact h1 h
    · exact h2 h
  have hon : socketHandler.onPacket v.events acks (some d) p =
      { ret := none, err := none, acks := acks,
        ops := (resolvedMessage p.ptype (some d)).2 ++ [DecOp.close],
        calls := [], panicked := false } := by
    simp only [socketHandler.onPacket]
    rw [if_neg hno, hm]
    rfl
  refine ⟨hon, ?_⟩
  simp only [loopIteration, hon]
  split_ifs <;> simp [nspSocket.sendConnect]

theorem onPacket_unknown_event_closes_witness :
    socketHandler.onPacket vEmptyRoot.events [] (some dXyzzy) pXyzzy =
      { ret := none, err := none, acks := [],
        ops := (resolvedMessage pXyzzy.ptype (some dXyzzy)).2 ++ [DecOp.close],
        calls := [], panicked := false } ∧
    (loopIteration vEmptyRoot [] dXyzzy pXyzzy (fun _ => none) (fun _ => none)).exits = false :=
  onPacket_unknown_event_closes vEmptyRoot [] dXyzzy pXyzzy (fun _ => none)
    (by decide) (by decide) rfl

/-- C8: a registered handler whose declared arity `olen` exceeds the decoded
payload width is still invoked, with the missing slots padded by nil values
up to exactly `olen` arguments. -/
theorem onPacket_pads_short_payload (events : EventTable) (acks : AckTable) (d : Decoder)
    (p : Packet) (c : Caller) (decoded : List GoValue)
    (h1 : p.ptype ≠ PacketType.ACK) (h2 : p.ptype ≠ PacketType.BINARY_ACK)
    (hc : lookupEvent events (resolvedMessage p.ptype (some d)).1 = some c)
    (holen : 0 < c.zero.length)
    (hdec : d.decodeData c.zero = Except.ok decoded)
    (hlt : decoded.length < c.zero.length) :
    (socketHandler.onPacket events acks (some d) p).calls =
      [(c.tag, decoded ++ List.replicate (c.zero.length - decoded.length) GoValue.vnil)] ∧
    ((socketHandler.onPacket events acks (some d) p).calls.map fun q => q.2.length) =
      [c.zero.length] := by
  have hno : ¬ (p.ptype = PacketType.ACK ∨ p.ptype = PacketType.BINARY_ACK) := by
    rintro (h | h)
    · exact h1 h
    · exact h2 h
  have hcalls : (socketHandler.onPacket events acks (some d) p).calls =
      [(c.tag, decoded ++ List.replicate (c.zero.length - decoded.length) GoValue.vnil)] := by
    simp only [socketHandler.onPacket]
    rw [if_neg hno, hc]
    simp only [runHandler]
    rw [if_pos holen, hdec]
    simp only [finishCall, padArgs]
  refine ⟨hcalls, ?_⟩
  rw [hcalls]
  simp only [List.map_cons, List.map_nil, List.length_append, List.length_replicate]
  congr 1
  omega

theorem onPacket_pads_short_payload_witness :
    (socketHandler.onPacket [("ev", cPad)] [] (some dPad) pEv).calls =
      [(cPad.tag, [GoValue.vint 1] ++
        List.replicate (cPad.zero.length - [GoValue.vint 1].length) GoValue.vnil)] ∧
    ((socketHandler.onPacket [("ev", cPad)] [] (some dPad) pEv).calls.map fun q => q.2.length) =
      [cPad.zero.length] :=
  onPacket_pads_short_payload [("ev", cPad)] [] dPad pEv cPad [GoValue.vint 1]
    (by decide) (by decide) rfl (by decide) rfl (by decide)

/-- C9: a packet that is not ACK/BINARY_ACK dispatched with a nil decoder
performs no decoder operation at all (no Message, DecodeData or Close), never
dereferences nil, leaves the ack table alone, and invokes the registered
handler (if any) with its fresh zero-valued GetArgs slots. -/
theorem onPacket_nil_decoder_safe (events : EventTable) (acks : AckTable) (p : Packet)
    (h1 : p.ptype ≠ PacketType.ACK) (h2 : p.ptype ≠ PacketType.BINARY_ACK) :
    (socketHandler.onPacket events acks none p).ops = [] ∧
    (socketHandler.onPacket events acks none p).panicked = false ∧
    (socketHandler.onPacket events acks none p).acks = acks ∧
    (socketHandler.onPacket events acks none p).calls =
      (match lookupEvent events (resolvedMessage p.ptype none).1 with
       | some c => [(c.tag, c.zero)]
       | none => []) := by
  have hno : ¬ (p.ptype = PacketType.ACK ∨ p.ptype = PacketType.BINARY_ACK) := by
    rintro (h | h)
    · exact h1 h
    · exact h2 h
  simp only [socketHandler.onPacket]
  rw [if_neg hno]
  rcases hl : lookupEvent events (resolvedMessage p.ptype none).1 with _ | c
  · simp [closeOps, resolvedMessage_none_ops]
  · simp [runHandler_none, finishCall, resolvedMessage_none_ops, padArgs_self]

theorem onPacket_nil_decoder_safe_witness :
    (socketHandler.onPacket [("disconnection", cDisc)] [] none pDisc).ops = [] ∧
    (socketHandler.onPacket [("disconnection", cDisc)] [] none pDisc).panicked = false ∧
    (socketHandler.onPacket [("disconnection", cDisc)] [] none pDisc).acks = [] ∧
    (socketHandler.onPacket [("disconnection", cDisc)] [] none pDisc).calls =
      (match lookupEvent [("disconnection", cDisc)] (resolvedMessage pDisc.ptype none).1 with
       | some c => [(c.tag, c.zero)]
       | none => []) :=
  onPacket_nil_decoder_safe [("disconnection", cDisc)] [] pDisc (by decide) (by decide)

/-- C1 counterexample: an inbound EVENT with `Id = 7` whose handler returns
an error: the loop checks the dispatch error before the ACK branch, so it
exits without emitting any ACK — the handler error does suppress the ACK. -/
theorem loop_no_ack_on_handler_error :
    (loopIteration vHello [] dHello pEvent7 (fun _ => none) (fun _ => none)).emitted = [] ∧
    (loopIteration vHello [] dHello pEvent7 (fun _ => none) (fun _ => none)).exits = true ∧
    (socketHandler.onPacket vHello.events [] (some dHello) pEvent7).err
      = some (GoValue.verr "boom") ∧
    0 ≤ pEvent7.Id :=
  ⟨rfl, rfl, rfl, by decide⟩

/-- C1 amended: for an inbound EVENT or BINARY_EVENT with `Id ≥ 0`, the loop
emits an ACK with the same Id and NSP carrying the dispatcher's non-error
return values exactly when the dispatch error is nil; when the handler's last
return value is an error the loop exits without emitting the ACK. -/
theorem loop_ack_after_handler (v : NspView) (acks : AckTable) (d : Decoder) (p : Packet)
    (le : String → Option GoValue) (ee : Packet → Option GoValue)
    (ht : p.ptype = PacketType.EVENT ∨ p.ptype = PacketType.BINARY_EVENT)
    (hid : 0 ≤ p.Id) :
    ((socketHandler.onPacket v.events acks (some d) p).err = none →
        (loopIteration v acks d p le ee).emitted =
          [{ ptype := PacketType.ACK, Id := p.Id, NSP := p.NSP,
             Data := (socketHandler.onPacket v.events acks (some d) p).ret }]) ∧
    (∀ e, (socketHandler.onPacket v.events acks (some d) p).err = some e →
        (loopIteration v acks d p le ee).emitted = [] ∧
        (loopIteration v acks d p le ee).exits = true) := by
  have hA : ¬ p.ptype = PacketType.CONNECT := by
    rcases ht with h | h <;> simp [h]
  have hB : p.ptype = PacketType.BINARY_EVENT ∨ p.ptype = PacketType.EVENT := ht.symm
  constructor
  · intro he
    simp only [loopIteration, he]
    rw [if_neg hA, if_pos hB, if_pos hid]
  · intro e he
    simp [loopIteration, he]

theorem loop_ack_after_handler_witness :
    (socketHandler.onPacket vHi.events [] (some dHello) pEvent7).err = none ∧
    (loopIteration vHi [] dHello pEvent7 (fun _ => none) (fun _ => none)).emitted =
      [{ ptype := PacketType.ACK, Id := pEvent7.Id, NSP := pEvent7.NSP,
         Data := (socketHandler.onPacket vHi.events [] (some dHello) pEvent7).ret }] :=
  ⟨rfl, (loop_ack_after_handler vHi [] dHello pEvent7 (fun _ => none) (fun _ => none)
      (Or.inl rfl) (by decide)).1 rfl⟩
